import Mathlib

/-!
Verification of the todo application's middleware/CRUD core.

Shallow embedding of:
* the `todos` relation and its rows (server/database/schema.ts),
* `TodosService` (server/services/TodosService.ts),
* the oRPC procedure chain: `loggingMiddleware`, `authMiddleware`,
  `commonProcedure`, `authProcedure` (server/endpoints/procedure.ts),
* the Zod DTOs `CreateTodoDto` / `UpdateTodoDto` (definitions.ts),
* the five endpoints of `todosRouter` (server/endpoints/todosRouter.ts).

Timestamps are modelled as naturals; the database's generated ids and
clock values enter as explicit parameters.
-/

/-- A row of the `todos` relation (schema.ts: id, title, completed,
userId, createdAt, updatedAt). -/
structure Todo where
  id : String
  title : String
  completed : Bool
  userId : String
  createdAt : Nat
  updatedAt : Nat
deriving DecidableEq, Repr

/-- A row of the `sessions` relation (schema.ts): the fields the
authorization path consults. -/
structure Session where
  id : String
  userId : String
  token : String
  expiresAt : Nat
deriving DecidableEq, Repr

/-- A row of the `users` relation (schema.ts): the fields the
authorization path consults. -/
structure User where
  id : String
  name : String
  email : String
deriving DecidableEq, Repr

/-- The relational store: the three relations the in-scope code touches. -/
structure Store where
  users : List User
  sessions : List Session
  todos : List Todo
deriving DecidableEq, Repr

/-- A failure value crossing the call boundary: either an `ORPCError`
with its code (and whether its `cause` is a `ValidationError`), or a
plain JavaScript `Error` with its message. -/
inductive AppError where
  | orpc (code : String) (causeIsValidationError : Bool)
  | jsError (message : String)
deriving DecidableEq, Repr

/-- `true` iff the failure is an `ORPCError`, i.e. carries one of the
framework-level error codes rather than being a plain thrown `Error`. -/
def AppError.isOrpc : AppError → Bool
  | .orpc _ _ => true
  | .jsError _ => false

/-- Modelled from the spec: `auth.api.getSession` belongs to the external
auth collaborator (Better Auth), not to this repository's sources. The
store-interface contract says: "given a bearer token, find a non-expired
session and its owning user". Returns the owning user, or `none` when the
headers carry no token, no session matches, or every match is expired. -/
def getSession (st : Store) (now : Nat) (token : Option String) : Option User :=
  match token with
  | none => none
  | some t =>
    match st.sessions.find? (fun s => s.token == t && now < s.expiresAt) with
    | none => none
    | some s => st.users.find? (fun u => u.id == s.userId)

namespace TodosService

/-- `TodosService.list`: `findMany` filtered by `eq(todos.userId, userId)`,
ordered by `desc(todos.createdAt)`. -/
def list (st : Store) (userId : String) : List Todo :=
  (st.todos.filter (fun t => t.userId == userId)).mergeSort
    (fun a b => decide (b.createdAt ≤ a.createdAt))

/-- `TodosService.create`: insert `{ title, userId }` with defaults
`completed = false`, `createdAt = updatedAt = now`, id generated by the
store; `.returning()` yields the new row. -/
def create (st : Store) (userId : String) (title : String)
    (newId : String) (now : Nat) : Todo × Store :=
  let todo : Todo :=
    { id := newId, title := title, completed := false, userId := userId
      createdAt := now, updatedAt := now }
  (todo, { st with todos := st.todos ++ [todo] })

/-- The dual predicate `and(eq(todos.id, todoId), eq(todos.userId, userId))`
used by toggle/update/delete. -/
def owned (todoId userId : String) (t : Todo) : Bool :=
  t.id == todoId && t.userId == userId

/-- `TodosService.toggle`: `findFirst` with the dual predicate; if absent
throw `Error("Todo not found")`; otherwise update `completed` to the
negation of the found row's value with the same dual predicate, returning
the updated row. -/
def toggle (st : Store) (userId : String) (todoId : String) (now : Nat) :
    Except AppError Todo × Store :=
  match st.todos.find? (owned todoId userId) with
  | none => (.error (.jsError "Todo not found"), st)
  | some existing =>
    let f := fun (t : Todo) =>
      if owned todoId userId t then
        { t with completed := !existing.completed, updatedAt := now }
      else t
    (.ok { existing with completed := !existing.completed, updatedAt := now },
     { st with todos := st.todos.map f })

/-- `TodosService.update`: update with the dual predicate, setting only
the supplied fields; `.returning()` empty means no row matched, in which
case throw `Error("Todo not found")`. -/
def update (st : Store) (userId : String) (data_id : String)
    (data_title : Option String) (data_completed : Option Bool) (now : Nat) :
    Except AppError Todo × Store :=
  let apply := fun (t : Todo) =>
    { t with title := data_title.getD t.title,
             completed := data_completed.getD t.completed,
             updatedAt := now }
  match st.todos.find? (owned data_id userId) with
  | none => (.error (.jsError "Todo not found"), st)
  | some existing =>
    (.ok (apply existing),
     { st with todos :=
        st.todos.map (fun t => if owned data_id userId t then apply t else t) })

/-- `TodosService.delete`: delete with the dual predicate; `.returning()`
yields the removed row as it existed; empty means no row matched, in which
case throw `Error("Todo not found")`. -/
def delete (st : Store) (userId : String) (todoId : String) :
    Except AppError Todo × Store :=
  match st.todos.find? (owned todoId userId) with
  | none => (.error (.jsError "Todo not found"), st)
  | some deleted =>
    (.ok deleted, { st with todos := st.todos.filter (fun t => !owned todoId userId t) })

end TodosService

/-! ### DTO validation (definitions.ts) -/

/-- The raw `create` payload as wired from the client: the declared `title`
field plus any extraneous owner id a malicious client may attach.
`z.object` strips keys not declared in `CreateTodoDto`, and the service
reads only `data.title`. -/
structure RawCreatePayload where
  title : String
  ownerId : Option String
deriving DecidableEq, Repr

/-- `CreateTodoDto`: `z.object({ title: z.string().min(1).max(500) })`. -/
def CreateTodoDto.titleValid (title : String) : Bool :=
  1 ≤ title.length && title.length ≤ 500

/-- Parsing a raw payload against `CreateTodoDto`: succeeds with the
title alone (unknown keys such as an owner id are stripped). -/
def parseCreateTodoDto (p : RawCreatePayload) : Option String :=
  if CreateTodoDto.titleValid p.title then some p.title else none

/-- `UpdateTodoDto`:
`z.object({ id: z.string(), title: z.string().min(1).max(500).optional(),
completed: z.boolean().optional() })`. -/
structure UpdateTodoDto where
  id : String
  title : Option String
  completed : Option Bool
deriving DecidableEq, Repr

/-- Whether an `UpdateTodoDto` value passes its Zod schema: a supplied
title must have length 1..500; an absent title is fine. -/
def UpdateTodoDto.valid (d : UpdateTodoDto) : Bool :=
  match d.title with
  | none => true
  | some t => 1 ≤ t.length && t.length ≤ 500

/-! ### Middleware chain (procedure.ts) -/

/-- Outcome of a call as seen at the procedure boundary: the returned value
or the failure, the store after the call, and the response headers. -/
structure CallResult (α : Type) where
  outcome : Except AppError α
  store : Store
  resHeaders : List (String × String)
deriving Repr

/-- The classification inside `loggingMiddleware`'s catch: an `ORPCError`
with code `INTERNAL_SERVER_ERROR` whose cause is a `ValidationError` is
re-signalled as `OUTPUT_VALIDATION_FAILED`; everything else is re-thrown
unchanged (logging itself has no observable effect on the outcome). -/
def logClassify (e : AppError) : AppError :=
  match e with
  | .orpc "INTERNAL_SERVER_ERROR" true => .orpc "OUTPUT_VALIDATION_FAILED" true
  | _ => e

/-- `loggingMiddleware`: `try return await next()` and on failure apply
the classification above; a success passes through untouched. -/
def loggingMiddleware (r : CallResult α) : CallResult α :=
  match r.outcome with
  | .ok _ => r
  | .error e => { r with outcome := .error (logClassify e) }

/-- `resHeaders.set(k, v)`: any previous entry for the key is replaced. -/
def setHeader (hs : List (String × String)) (k v : String) : List (String × String) :=
  hs.filter (fun p => p.1 != k) ++ [(k, v)]

/-- The exact directive string `authMiddleware` attaches. -/
def cacheControlValue : String := "no-store,private,must-revalidate"

/-- `authMiddleware`: resolve the session from the headers; without one
throw `errors.UNAUTHORIZED()` (the handler is never invoked and the store
is untouched); with one run `next` with the user merged into the context,
and on the way back out of a successful call set the `Cache-Control`
response header. -/
def authMiddleware (st : Store) (now : Nat) (token : Option String)
    (next : User → CallResult α) : CallResult α :=
  match getSession st now token with
  | none => ⟨.error (.orpc "UNAUTHORIZED" false), st, []⟩
  | some user =>
    let r := next user
    match r.outcome with
    | .ok _ => { r with resHeaders := setHeader r.resHeaders "Cache-Control" cacheControlValue }
    | .error _ => r

/-! ### The five `todosRouter` endpoints, composed as
`authProcedure = baseProcedure.use(loggingMiddleware).use(authMiddleware)`
followed by input validation (`.input(...)` comes after the middlewares,
so they run first; an input-schema failure is the framework's
`ORPCError("BAD_REQUEST")` with a `ValidationError` cause) and the handler. -/

/-- `todosRouter.list` through the full authenticated procedure chain. -/
def runList (st : Store) (now : Nat) (token : Option String) :
    CallResult (List Todo) :=
  loggingMiddleware (authMiddleware st now token (fun user =>
    ⟨.ok (TodosService.list st user.id), st, []⟩))

/-- `todosRouter.create` through the full chain, including the
`CreateTodoDto` input gate. `newId` is the store-generated row id. -/
def runCreate (st : Store) (now : Nat) (token : Option String)
    (payload : RawCreatePayload) (newId : String) : CallResult Todo :=
  loggingMiddleware (authMiddleware st now token (fun user =>
    match parseCreateTodoDto payload with
    | none => ⟨.error (.orpc "BAD_REQUEST" true), st, []⟩
    | some title =>
      let r := TodosService.create st user.id title newId now
      ⟨.ok r.1, r.2, []⟩))

/-- `todosRouter.toggle` through the full chain
(`z.object({ id: z.string() })` accepts every string id). -/
def runToggle (st : Store) (now : Nat) (token : Option String)
    (todoId : String) : CallResult Todo :=
  loggingMiddleware (authMiddleware st now token (fun user =>
    let r := TodosService.toggle st user.id todoId now
    ⟨r.1, r.2, []⟩))

/-- `todosRouter.update` through the full chain, including the
`UpdateTodoDto` input gate. -/
def runUpdate (st : Store) (now : Nat) (token : Option String)
    (data : UpdateTodoDto) : CallResult Todo :=
  loggingMiddleware (authMiddleware st now token (fun user =>
    if data.valid then
      let r := TodosService.update st user.id data.id data.title data.completed now
      ⟨r.1, r.2, []⟩
    else ⟨.error (.orpc "BAD_REQUEST" true), st, []⟩))

/-- `todosRouter.delete` through the full chain. -/
def runDelete (st : Store) (now : Nat) (token : Option String)
    (todoId : String) : CallResult Todo :=
  loggingMiddleware (authMiddleware st now token (fun user =>
    let r := TodosService.delete st user.id todoId
    ⟨r.1, r.2, []⟩))

/-! ### Helper lemmas -/

lemma find_eq_some_of_unique {α : Type} {p : α → Bool} {l : List α} {a : α}
    (ha : a ∈ l) (hpa : p a = true) (huniq : ∀ x ∈ l, p x = true → x = a) :
    l.find? p = some a := by
  induction l with
  | nil => cases ha
  | cons x xs ih =>
    by_cases hx : p x = true
    · have hxa : x = a := huniq x (List.mem_cons_self x xs) hx
      subst hxa
      simp [List.find?_cons, hx, hpa]
    · have hax : a ∈ xs := by
        rcases List.mem_cons.mp ha with h | h
        · exact absurd (h ▸ hpa) hx
        · exact h
      have : xs.find? p = some a :=
        ih hax (fun x hx1 hx2 => huniq x (List.mem_cons_of_mem _ hx1) hx2)
      simp [List.find?_cons, hx, this]

lemma getSession_eq_none {st : Store} {now : Nat} {token : Option String}
    (h : ∀ s ∈ st.sessions, token = some s.token → s.expiresAt ≤ now) :
    getSession st now token = none := by
  unfold getSession
  cases token with
  | none => rfl
  | some t =>
    have hfind : st.sessions.find? (fun s => s.token == t && now < s.expiresAt) = none := by
      rw [List.find?_eq_none]
      intro s hs hcontra
      simp only [Bool.and_eq_true, beq_iff_eq, decide_eq_true_eq] at hcontra
      obtain ⟨h1, h2⟩ := hcontra
      have hle := h s hs (by rw [h1])
      exact absurd h2 (Nat.not_lt.mpr hle)
    simp [hfind]

lemma loggingMiddleware_store {α : Type} (r : CallResult α) :
    (loggingMiddleware r).store = r.store := by
  unfold loggingMiddleware; split <;> rfl

lemma loggingMiddleware_resHeaders {α : Type} (r : CallResult α) :
    (loggingMiddleware r).resHeaders = r.resHeaders := by
  unfold loggingMiddleware; split <;> rfl

lemma loggingMiddleware_ok {α : Type} {r : CallResult α} {a : α}
    (h : r.outcome = .ok a) : loggingMiddleware r = r := by
  unfold loggingMiddleware; rw [h]

lemma loggingMiddleware_error {α : Type} {r : CallResult α} {e : AppError}
    (h : r.outcome = .error e) :
    loggingMiddleware r = { r with outcome := .error (logClassify e) } := by
  unfold loggingMiddleware; rw [h]

lemma logClassify_eq (e : AppError) :
    logClassify e = if e = .orpc "INTERNAL_SERVER_ERROR" true
      then .orpc "OUTPUT_VALIDATION_FAILED" true else e := by
  unfold logClassify
  split
  · simp
  · rename_i hne
    exact (if_neg hne).symm

lemma authMiddleware_none {α : Type} {st : Store} {now : Nat} {token : Option String}
    (next : User → CallResult α) (h : getSession st now token = none) :
    authMiddleware st now token next =
      ⟨.error (.orpc "UNAUTHORIZED" false), st, []⟩ := by
  unfold authMiddleware; rw [h]

lemma authMiddleware_some_ok {α : Type} {st : Store} {now : Nat} {token : Option String}
    {u : User} {a : α} (next : User → CallResult α)
    (h : getSession st now token = some u) (ha : (next u).outcome = .ok a) :
    authMiddleware st now token next =
      { next u with resHeaders := setHeader (next u).resHeaders "Cache-Control" cacheControlValue } := by
  unfold authMiddleware; rw [h]; simp only [ha]

lemma authMiddleware_some_error {α : Type} {st : Store} {now : Nat} {token : Option String}
    {u : User} {e : AppError} (next : User → CallResult α)
    (h : getSession st now token = some u) (he : (next u).outcome = .error e) :
    authMiddleware st now token next = next u := by
  unfold authMiddleware; rw [h]; simp only [he]

lemma toggle_no_match {st : Store} {uid tid : String} {now : Nat}
    (h : ∀ t ∈ st.todos, TodosService.owned tid uid t = false) :
    TodosService.toggle st uid tid now = (.error (.jsError "Todo not found"), st) := by
  have hfind : st.todos.find? (TodosService.owned tid uid) = none := by
    rw [List.find?_eq_none]; intro t ht; simp [h t ht]
  unfold TodosService.toggle; rw [hfind]

lemma update_no_match {st : Store} {uid tid : String} {tt : Option String}
    {tc : Option Bool} {now : Nat}
    (h : ∀ t ∈ st.todos, TodosService.owned tid uid t = false) :
    TodosService.update st uid tid tt tc now = (.error (.jsError "Todo not found"), st) := by
  have hfind : st.todos.find? (TodosService.owned tid uid) = none := by
    rw [List.find?_eq_none]; intro t ht; simp [h t ht]
  unfold TodosService.update; rw [hfind]

lemma delete_no_match {st : Store} {uid tid : String}
    (h : ∀ t ∈ st.todos, TodosService.owned tid uid t = false) :
    TodosService.delete st uid tid = (.error (.jsError "Todo not found"), st) := by
  have hfind : st.todos.find? (TodosService.owned tid uid) = none := by
    rw [List.find?_eq_none]; intro t ht; simp [h t ht]
  unfold TodosService.delete; rw [hfind]

/-- When ids are unique in the relation and `T` belongs to a different
user, no row satisfies the dual predicate `(id = T.id, userId = uid)`. -/
lemma owned_false_of_nodup {st : Store} {T : Todo} {uid : String}
    (hnodup : (st.todos.map Todo.id).Nodup) (hT : T ∈ st.todos)
    (hne : uid ≠ T.userId) :
    ∀ t ∈ st.todos, TodosService.owned T.id uid t = false := by
  intro t ht
  rw [Bool.eq_false_iff]
  intro hcontra
  unfold TodosService.owned at hcontra
  simp only [Bool.and_eq_true, beq_iff_eq] at hcontra
  obtain ⟨hid, huid⟩ := hcontra
  have : t = T := List.inj_on_of_nodup_map hnodup ht hT hid
  exact hne (by rw [← huid, this])

/-- Shared shape of the three ownership-scoped mutations when no row of
the store matches both the target id and the caller's id: each endpoint
fails with the service's plain `Error("Todo not found")`, propagated
unchanged by the logging wrap, and the store is untouched. -/
lemma mutations_notFound {st : Store} {now : Nat} {token : Option String}
    {caller : User} {tid : String} {data : UpdateTodoDto}
    (hsess : getSession st now token = some caller)
    (hno : ∀ t ∈ st.todos, TodosService.owned tid caller.id t = false)
    (hdata : data.id = tid) (hvalid : data.valid = true) :
    runToggle st now token tid = ⟨.error (.jsError "Todo not found"), st, []⟩
  ∧ runUpdate st now token data = ⟨.error (.jsError "Todo not found"), st, []⟩
  ∧ runDelete st now token tid = ⟨.error (.jsError "Todo not found"), st, []⟩ := by
  have ht := @toggle_no_match st caller.id tid now hno
  have hu := @update_no_match st caller.id tid data.title data.completed now hno
  have hd := delete_no_match hno
  refine ⟨?_, ?_, ?_⟩
  · unfold runToggle
    rw [authMiddleware_some_error _ hsess (by simp only [ht]; rfl)]
    simp only [ht]
    rfl
  · unfold runUpdate
    rw [authMiddleware_some_error _ hsess (by simp only [hvalid, if_true, hdata, hu]; rfl)]
    simp only [hvalid, if_true, hdata, hu]
    rfl
  · unfold runDelete
    rw [authMiddleware_some_error _ hsess (by simp only [hd]; rfl)]
    simp only [hd]
    rfl

/-! ### Claims -/

/-- C1: for distinct users U1 ≠ U2 and a todo T owned by U1 (ids unique in
the store), U2's toggle, update and delete calls against T's id each fail
with the not-found kind and leave the store — in particular T's row —
unchanged. -/
theorem crossUser_mutations_notFound (st : Store) (now : Nat)
    (token : Option String) (caller : User) (T : Todo) (data : UpdateTodoDto)
    (hnodup : (st.todos.map Todo.id).Nodup)
    (hT : T ∈ st.todos)
    (hsess : getSession st now token = some caller)
    (hne : caller.id ≠ T.userId)
    (hdata : data.id = T.id) (hvalid : data.valid = true) :
    runToggle st now token T.id = ⟨.error (.jsError "Todo not found"), st, []⟩
  ∧ runUpdate st now token data = ⟨.error (.jsError "Todo not found"), st, []⟩
  ∧ runDelete st now token T.id = ⟨.error (.jsError "Todo not found"), st, []⟩
  ∧ T ∈ (runToggle st now token T.id).store.todos
  ∧ T ∈ (runUpdate st now token data).store.todos
  ∧ T ∈ (runDelete st now token T.id).store.todos := by
  have hno := owned_false_of_nodup hnodup hT hne
  obtain ⟨h1, h2, h3⟩ := mutations_notFound hsess hno hdata hvalid
  exact ⟨h1, h2, h3, by rw [h1]; exact hT, by rw [h2]; exact hT, by rw [h3]; exact hT⟩

/-- C1 witness: a two-user store where user `u2` attacks `u1`'s todo `t1`. -/
theorem crossUser_mutations_notFound_witness :
    runToggle ⟨[⟨"u1", "A", "a@x"⟩, ⟨"u2", "B", "b@x"⟩],
        [⟨"s1", "u1", "tok1", 100⟩, ⟨"s2", "u2", "tok2", 100⟩],
        [⟨"t1", "Buy milk", false, "u1", 3, 3⟩]⟩ 5 (some "tok2") "t1"
      = ⟨.error (.jsError "Todo not found"),
         ⟨[⟨"u1", "A", "a@x"⟩, ⟨"u2", "B", "b@x"⟩],
          [⟨"s1", "u1", "tok1", 100⟩, ⟨"s2", "u2", "tok2", 100⟩],
          [⟨"t1", "Buy milk", false, "u1", 3, 3⟩]⟩, []⟩
  ∧ (⟨"t1", "Buy milk", false, "u1", 3, 3⟩ : Todo)
      ∈ (runToggle ⟨[⟨"u1", "A", "a@x"⟩, ⟨"u2", "B", "b@x"⟩],
          [⟨"s1", "u1", "tok1", 100⟩, ⟨"s2", "u2", "tok2", 100⟩],
          [⟨"t1", "Buy milk", false, "u1", 3, 3⟩]⟩ 5 (some "tok2") "t1").store.todos := by
  have h := crossUser_mutations_notFound
    ⟨[⟨"u1", "A", "a@x"⟩, ⟨"u2", "B", "b@x"⟩],
     [⟨"s1", "u1", "tok1", 100⟩, ⟨"s2", "u2", "tok2", 100⟩],
     [⟨"t1", "Buy milk", false, "u1", 3, 3⟩]⟩ 5 (some "tok2")
    ⟨"u2", "B", "b@x"⟩ ⟨"t1", "Buy milk", false, "u1", 3, 3⟩ ⟨"t1", none, none⟩
    (by decide) (by decide) (by decide) (by decide) (by decide) (by decide)
  exact ⟨h.1, h.2.2.2.1⟩

/-- C3: any call through the authenticated tier whose headers carry no
token, or only a token whose sessions are all expired, fails with the
`UNAUTHORIZED` kind, the store is untouched, and — last conjunct — the
result does not depend on the downstream handler, which therefore never
runs. -/
theorem authRequired_unauthorized (st : Store) (now : Nat)
    (token : Option String) (payload : RawCreatePayload) (newId : String)
    (data : UpdateTodoDto) (todoId : String)
    (h : ∀ s ∈ st.sessions, token = some s.token → s.expiresAt ≤ now) :
    runList st now token = ⟨.error (.orpc "UNAUTHORIZED" false), st, []⟩
  ∧ runCreate st now token payload newId = ⟨.error (.orpc "UNAUTHORIZED" false), st, []⟩
  ∧ runToggle st now token todoId = ⟨.error (.orpc "UNAUTHORIZED" false), st, []⟩
  ∧ runUpdate st now token data = ⟨.error (.orpc "UNAUTHORIZED" false), st, []⟩
  ∧ runDelete st now token todoId = ⟨.error (.orpc "UNAUTHORIZED" false), st, []⟩
  ∧ ∀ next : User → CallResult Todo,
      authMiddleware st now token next = ⟨.error (.orpc "UNAUTHORIZED" false), st, []⟩ := by
  have hg := getSession_eq_none h
  refine ⟨?_, ?_, ?_, ?_, ?_, fun next => authMiddleware_none next hg⟩
  · unfold runList; rw [authMiddleware_none _ hg]; rfl
  · unfold runCreate; rw [authMiddleware_none _ hg]; rfl
  · unfold runToggle; rw [authMiddleware_none _ hg]; rfl
  · unfold runUpdate; rw [authMiddleware_none _ hg]; rfl
  · unfold runDelete; rw [authMiddleware_none _ hg]; rfl

/-- C3 witness: a store whose only session for the presented token expired
at instant 100, probed at instant 200; and the token-free case. -/
theorem authRequired_unauthorized_witness :
    runList ⟨[⟨"u1", "A", "a@x"⟩], [⟨"s1", "u1", "tok1", 100⟩], []⟩ 200 (some "tok1")
      = ⟨.error (.orpc "UNAUTHORIZED" false),
         ⟨[⟨"u1", "A", "a@x"⟩], [⟨"s1", "u1", "tok1", 100⟩], []⟩, []⟩
  ∧ runCreate ⟨[⟨"u1", "A", "a@x"⟩], [⟨"s1", "u1", "tok1", 100⟩], []⟩ 200 none
        ⟨"hello", none⟩ "t9"
      = ⟨.error (.orpc "UNAUTHORIZED" false),
         ⟨[⟨"u1", "A", "a@x"⟩], [⟨"s1", "u1", "tok1", 100⟩], []⟩, []⟩ := by
  refine ⟨?_, ?_⟩
  · exact (authRequired_unauthorized ⟨[⟨"u1", "A", "a@x"⟩], [⟨"s1", "u1", "tok1", 100⟩], []⟩
      200 (some "tok1") ⟨"hello", none⟩ "t9" ⟨"t1", none, none⟩ "t1" (by decide)).1
  · exact (authRequired_unauthorized ⟨[⟨"u1", "A", "a@x"⟩], [⟨"s1", "u1", "tok1", 100⟩], []⟩
      200 none ⟨"hello", none⟩ "t9" ⟨"t1", none, none⟩ "t1" (by decide)).2.1

/-- C7: for every failure raised below the logging wrap, the wrap
re-signals it as `OUTPUT_VALIDATION_FAILED` exactly when it is the
structured output-schema-mismatch failure (`ORPCError` of code
`INTERNAL_SERVER_ERROR` whose cause is a `ValidationError`); every other
failure is re-raised unchanged, and no failure is ever swallowed — the
result stays an error and the store and headers are untouched. -/
theorem loggingMiddleware_relabel_iff (α : Type) (r : CallResult α)
    (e : AppError) (h : r.outcome = .error e) :
    (loggingMiddleware r).outcome =
      .error (if e = .orpc "INTERNAL_SERVER_ERROR" true
        then .orpc "OUTPUT_VALIDATION_FAILED" true else e)
  ∧ (loggingMiddleware r).store = r.store
  ∧ (loggingMiddleware r).resHeaders = r.resHeaders := by
  refine ⟨?_, loggingMiddleware_store r, loggingMiddleware_resHeaders r⟩
  rw [loggingMiddleware_error h]
  simp only [logClassify_eq]

/-- C7 witness: the structured output-validation failure is relabelled;
a plain service error and an input-validation failure pass unchanged. -/
theorem loggingMiddleware_relabel_iff_witness :
    (loggingMiddleware
        (⟨.error (.orpc "INTERNAL_SERVER_ERROR" true), ⟨[], [], []⟩, []⟩ : CallResult Unit)).outcome
      = .error (.orpc "OUTPUT_VALIDATION_FAILED" true)
  ∧ (loggingMiddleware
        (⟨.error (.jsError "Todo not found"), ⟨[], [], []⟩, []⟩ : CallResult Unit)).outcome
      = .error (.jsError "Todo not found")
  ∧ (loggingMiddleware
        (⟨.error (.orpc "BAD_REQUEST" true), ⟨[], [], []⟩, []⟩ : CallResult Unit)).outcome
      = .error (.orpc "BAD_REQUEST" true) := by
  refine ⟨?_, ?_, ?_⟩
  · simpa using (loggingMiddleware_relabel_iff Unit
      ⟨.error (.orpc "INTERNAL_SERVER_ERROR" true), ⟨[], [], []⟩, []⟩
      (.orpc "INTERNAL_SERVER_ERROR" true) rfl).1
  · simpa using (loggingMiddleware_relabel_iff Unit
      ⟨.error (.jsError "Todo not found"), ⟨[], [], []⟩, []⟩
      (.jsError "Todo not found") rfl).1
  · simpa using (loggingMiddleware_relabel_iff Unit
      ⟨.error (.orpc "BAD_REQUEST" true), ⟨[], [], []⟩, []⟩
      (.orpc "BAD_REQUEST" true) rfl).1

/-- C8 counterexample: at a concrete two-user store, a cross-user toggle
fails with the service's plain `Error("Todo not found")`; that failure is
not one of the system's declared `ORPCError` kinds at all, and differs
from the `UNAUTHORIZED` kind the system uses for authentication denials —
so the claim as stated is false on the code. -/
theorem notFound_kind_counterexample :
    (runToggle ⟨[⟨"u1", "A", "a@x"⟩, ⟨"u2", "B", "b@x"⟩],
        [⟨"s1", "u1", "tok1", 100⟩, ⟨"s2", "u2", "tok2", 100⟩],
        [⟨"t1", "Buy milk", false, "u1", 3, 3⟩]⟩ 5 (some "tok2") "t1").outcome
      = .error (.jsError "Todo not found")
  ∧ (runToggle ⟨[⟨"u1", "A", "a@x"⟩, ⟨"u2", "B", "b@x"⟩],
        [⟨"s1", "u1", "tok1", 100⟩, ⟨"s2", "u2", "tok2", 100⟩],
        [⟨"t1", "Buy milk", false, "u1", 3, 3⟩]⟩ 5 none "t1").outcome
      = .error (.orpc "UNAUTHORIZED" false)
  ∧ AppError.isOrpc (.jsError "Todo not found") = false
  ∧ AppError.jsError "Todo not found" ≠ AppError.orpc "UNAUTHORIZED" false := by
  exact ⟨rfl, rfl, rfl, by decide⟩

/-- C8 amended: toggle, update and delete on an id with no row owned by
the caller all fail with the one generic error value
`Error("Todo not found")` — identical whether the id is absent from the
store or owned by a different user, so existence is not disclosed — and
the logging wrap propagates it unchanged with the store untouched; this
error is a plain exception, not a member of the declared `ORPCError`
kind set. -/
theorem notFound_uniform_nondisclosure (st : Store) (now : Nat)
    (token : Option String) (caller : User) (tid : String) (data : UpdateTodoDto)
    (hsess : getSession st now token = some caller)
    (hno : ∀ t ∈ st.todos, ¬(t.id = tid ∧ t.userId = caller.id))
    (hdata : data.id = tid) (hvalid : data.valid = true) :
    runToggle st now token tid = ⟨.error (.jsError "Todo not found"), st, []⟩
  ∧ runUpdate st now token data = ⟨.error (.jsError "Todo not found"), st, []⟩
  ∧ runDelete st now token tid = ⟨.error (.jsError "Todo not found"), st, []⟩
  ∧ AppError.isOrpc (.jsError "Todo not found") = false := by
  have hno2 : ∀ t ∈ st.todos, TodosService.owned tid caller.id t = false := by
    intro t ht
    rw [Bool.eq_false_iff]
    intro hc
    unfold TodosService.owned at hc
    simp only [Bool.and_eq_true, beq_iff_eq] at hc
    exact hno t ht hc
  obtain ⟨h1, h2, h3⟩ := mutations_notFound hsess hno2 hdata hvalid
  exact ⟨h1, h2, h3, rfl⟩

/-- C8 amended witness: the same error value for an id absent from the
store (`"zz"`) as the counterexample exhibits for a foreign-owned one. -/
theorem notFound_uniform_nondisclosure_witness :
    runToggle ⟨[⟨"u1", "A", "a@x"⟩], [⟨"s1", "u1", "tok1", 100⟩],
        [⟨"t1", "Buy milk", false, "u1", 3, 3⟩]⟩ 5 (some "tok1") "zz"
      = ⟨.error (.jsError "Todo not found"),
         ⟨[⟨"u1", "A", "a@x"⟩], [⟨"s1", "u1", "tok1", 100⟩],
          [⟨"t1", "Buy milk", false, "u1", 3, 3⟩]⟩, []⟩ := by
  exact (notFound_uniform_nondisclosure
    ⟨[⟨"u1", "A", "a@x"⟩], [⟨"s1", "u1", "tok1", 100⟩],
     [⟨"t1", "Buy milk", false, "u1", 3, 3⟩]⟩ 5 (some "tok1")
    ⟨"u1", "A", "a@x"⟩ "zz" ⟨"zz", none, none⟩
    (by decide) (by decide) rfl rfl).1

/-- C2: with a valid session and a valid title, `create` succeeds and the
created row's owner is the authenticated caller's id; an owner id attached
to the payload has zero effect — the whole call result is identical for
every value of that extraneous field. -/
theorem create_owner_is_caller (st : Store) (now : Nat) (token : Option String)
    (caller : User) (payload : RawCreatePayload) (newId : String)
    (hsess : getSession st now token = some caller)
    (hvalid : CreateTodoDto.titleValid payload.title = true) :
    (runCreate st now token payload newId).outcome =
      .ok ⟨newId, payload.title, false, caller.id, now, now⟩
  ∧ (runCreate st now token payload newId).store =
      { st with todos := st.todos ++ [⟨newId, payload.title, false, caller.id, now, now⟩] }
  ∧ ∀ o : Option String,
      runCreate st now token ⟨payload.title, o⟩ newId =
        runCreate st now token payload newId := by
  have hparse : parseCreateTodoDto payload = some payload.title := by
    simp [parseCreateTodoDto, hvalid]
  have hrun : runCreate st now token payload newId =
      ⟨.ok ⟨newId, payload.title, false, caller.id, now, now⟩,
       { st with todos := st.todos ++ [⟨newId, payload.title, false, caller.id, now, now⟩] },
       [("Cache-Control", cacheControlValue)]⟩ := by
    unfold runCreate
    rw [authMiddleware_some_ok _ hsess (by simp only [hparse]; rfl)]
    simp only [hparse]
    rfl
  exact ⟨by rw [hrun], by rw [hrun], fun o => rfl⟩

/-- C2 witness: a payload claiming owner `"u2"` still yields a todo owned
by the authenticated caller `"u1"`, and the call result equals the one for
the owner-free payload. -/
theorem create_owner_is_caller_witness :
    (runCreate ⟨[⟨"u1", "A", "a@x"⟩], [⟨"s1", "u1", "tok1", 100⟩], []⟩ 5 (some "tok1")
        ⟨"Buy milk", some "u2"⟩ "t1").outcome
      = .ok ⟨"t1", "Buy milk", false, "u1", 5, 5⟩
  ∧ runCreate ⟨[⟨"u1", "A", "a@x"⟩], [⟨"s1", "u1", "tok1", 100⟩], []⟩ 5 (some "tok1")
        ⟨"Buy milk", some "u2"⟩ "t1"
      = runCreate ⟨[⟨"u1", "A", "a@x"⟩], [⟨"s1", "u1", "tok1", 100⟩], []⟩ 5 (some "tok1")
        ⟨"Buy milk", none⟩ "t1" := by
  have h := create_owner_is_caller ⟨[⟨"u1", "A", "a@x"⟩], [⟨"s1", "u1", "tok1", 100⟩], []⟩ 5
    (some "tok1") ⟨"u1", "A", "a@x"⟩ ⟨"Buy milk", none⟩ "t1" (by decide) (by decide)
  exact ⟨by rw [h.2.2 (some "u2")]; exact h.1, h.2.2 (some "u2")⟩

/-- C4: with a valid session, a `create` whose title has length 0 or more
than 500 is rejected by the input gate with the framework's validation
failure (`ORPCError BAD_REQUEST`, `ValidationError` cause); the handler
and the todos relation are never reached and the store is unchanged. -/
theorem create_invalid_title_rejected (st : Store) (now : Nat)
    (token : Option String) (caller : User) (payload : RawCreatePayload)
    (newId : String)
    (hsess : getSession st now token = some caller)
    (hbad : payload.title.length = 0 ∨ 500 < payload.title.length) :
    runCreate st now token payload newId = ⟨.error (.orpc "BAD_REQUEST" true), st, []⟩ := by
  have hinvalid : CreateTodoDto.titleValid payload.title = false := by
    unfold CreateTodoDto.titleValid
    rcases hbad with h0 | h5
    · simp [h0]
    · have : ¬ payload.title.length ≤ 500 := Nat.not_le.mpr h5
      simp [this]
  have hparse : parseCreateTodoDto payload = none := by
    simp [parseCreateTodoDto, hinvalid]
  unfold runCreate
  rw [authMiddleware_some_error _ hsess (by simp only [hparse]; rfl)]
  simp only [hparse]
  rfl

/-- C4 witness: `create({title: ""})` under a valid session. -/
theorem create_invalid_title_rejected_witness :
    runCreate ⟨[⟨"u1", "A", "a@x"⟩], [⟨"s1", "u1", "tok1", 100⟩], []⟩ 5 (some "tok1")
        ⟨"", none⟩ "t1"
      = ⟨.error (.orpc "BAD_REQUEST" true),
         ⟨[⟨"u1", "A", "a@x"⟩], [⟨"s1", "u1", "tok1", 100⟩], []⟩, []⟩ :=
  create_invalid_title_rejected ⟨[⟨"u1", "A", "a@x"⟩], [⟨"s1", "u1", "tok1", 100⟩], []⟩
    5 (some "tok1") ⟨"u1", "A", "a@x"⟩ ⟨"", none⟩ "t1" (by decide) (Or.inl rfl)

/-- C5: with a valid session, `list` succeeds and returns exactly the
caller's todos — a permutation of the owner-filtered relation, every
element owned by the caller — ordered newest-created-first, with the
store untouched; an empty population for the caller yields the successful
empty list, not a failure. -/
theorem list_owner_scoped (st : Store) (now : Nat) (token : Option String)
    (caller : User) (hsess : getSession st now token = some caller) :
    (runList st now token).outcome = .ok (TodosService.list st caller.id)
  ∧ (∀ t ∈ TodosService.list st caller.id, t.userId = caller.id)
  ∧ (TodosService.list st caller.id).Perm
      (st.todos.filter (fun t => t.userId == caller.id))
  ∧ List.Pairwise (fun a b => b.createdAt ≤ a.createdAt)
      (TodosService.list st caller.id)
  ∧ (runList st now token).store = st
  ∧ (st.todos.filter (fun t => t.userId == caller.id) = [] →
      (runList st now token).outcome = .ok []) := by
  have hrun : runList st now token =
      ⟨.ok (TodosService.list st caller.id), st, [("Cache-Control", cacheControlValue)]⟩ := by
    unfold runList
    rw [authMiddleware_some_ok _ hsess (by rfl)]
    rfl
  refine ⟨by rw [hrun], ?_, ?_, ?_, by rw [hrun], ?_⟩
  · intro t ht
    unfold TodosService.list at ht
    have hmem := List.mem_mergeSort.mp ht
    rcases List.mem_filter.mp hmem with ⟨_, h2⟩
    exact beq_iff_eq.mp h2
  · exact List.mergeSort_perm _ _
  · have hp := @List.sorted_mergeSort Todo
      (fun a b => decide (b.createdAt ≤ a.createdAt))
      (fun a b c hab hbc => by
        simp only [decide_eq_true_eq] at hab hbc ⊢
        exact Nat.le_trans hbc hab)
      (fun a b => by
        simp only [Bool.or_eq_true, decide_eq_true_eq]
        exact Nat.le_total b.createdAt a.createdAt)
      (st.todos.filter (fun t => t.userId == caller.id))
    exact hp.imp (fun h => of_decide_eq_true h)
  · intro he
    have hnil : TodosService.list st caller.id = [] := by
      unfold TodosService.list
      rw [he]
      simp [List.mergeSort]
    rw [hrun, hnil]

/-- C5 witness: a three-todo, two-user store; u1 sees exactly its two
todos newest-first, and never u2's. -/
theorem list_owner_scoped_witness :
    (runList ⟨[⟨"u1", "A", "a@x"⟩, ⟨"u2", "B", "b@x"⟩],
        [⟨"s1", "u1", "tok1", 100⟩],
        [⟨"t2", "Old", true, "u1", 1, 1⟩, ⟨"t3", "Other", false, "u2", 2, 2⟩,
         ⟨"t1", "Buy milk", false, "u1", 3, 3⟩]⟩ 5 (some "tok1")).outcome
      = .ok (TodosService.list ⟨[⟨"u1", "A", "a@x"⟩, ⟨"u2", "B", "b@x"⟩],
          [⟨"s1", "u1", "tok1", 100⟩],
          [⟨"t2", "Old", true, "u1", 1, 1⟩, ⟨"t3", "Other", false, "u2", 2, 2⟩,
           ⟨"t1", "Buy milk", false, "u1", 3, 3⟩]⟩ "u1")
  ∧ ∀ t ∈ TodosService.list ⟨[⟨"u1", "A", "a@x"⟩, ⟨"u2", "B", "b@x"⟩],
        [⟨"s1", "u1", "tok1", 100⟩],
        [⟨"t2", "Old", true, "u1", 1, 1⟩, ⟨"t3", "Other", false, "u2", 2, 2⟩,
         ⟨"t1", "Buy milk", false, "u1", 3, 3⟩]⟩ "u1", t.userId = "u1" := by
  have h := list_owner_scoped ⟨[⟨"u1", "A", "a@x"⟩, ⟨"u2", "B", "b@x"⟩],
    [⟨"s1", "u1", "tok1", 100⟩],
    [⟨"t2", "Old", true, "u1", 1, 1⟩, ⟨"t3", "Other", false, "u2", 2, 2⟩,
     ⟨"t1", "Buy milk", false, "u1", 3, 3⟩]⟩ 5 (some "tok1") ⟨"u1", "A", "a@x"⟩ (by decide)
  exact ⟨h.1, h.2.1⟩

/-- Every successful pass through `authMiddleware` (wrapped in the logging
stage, with a handler that starts from empty response headers, as all five
endpoints do) carries exactly the `Cache-Control: no-store,private,
must-revalidate` directive on the way out. -/
lemma run_ok_header {α : Type} (st : Store) (now : Nat) (token : Option String)
    (next : User → CallResult α) (a : α)
    (hhdr : ∀ u, (next u).resHeaders = [])
    (h : (loggingMiddleware (authMiddleware st now token next)).outcome = .ok a) :
    (loggingMiddleware (authMiddleware st now token next)).resHeaders
      = [("Cache-Control", cacheControlValue)] := by
  cases hg : getSession st now token with
  | none =>
    rw [authMiddleware_none next hg] at h
    rw [loggingMiddleware_error (r := ⟨.error (.orpc "UNAUTHORIZED" false), st, []⟩) rfl] at h
    cases h
  | some u =>
    cases ho : (next u).outcome with
    | error e =>
      rw [authMiddleware_some_error next hg ho] at h
      rw [loggingMiddleware_error ho] at h
      cases h
    | ok b =>
      rw [authMiddleware_some_ok next hg ho]
      rw [loggingMiddleware_resHeaders]
      rw [hhdr u]
      rfl

/-- C9: every call through the authenticated tier that succeeds carries
the response directive `Cache-Control: no-store,private,must-revalidate`,
forbidding any intermediary from storing the response and requiring
revalidation before reuse — for each of the five endpoints. -/
theorem authenticated_success_cache_header (st : Store) (now : Nat)
    (token : Option String) (payload : RawCreatePayload) (newId : String)
    (data : UpdateTodoDto) (todoId tid2 : String) :
    (∀ r, (runList st now token).outcome = .ok r →
       (runList st now token).resHeaders = [("Cache-Control", cacheControlValue)])
  ∧ (∀ t, (runCreate st now token payload newId).outcome = .ok t →
       (runCreate st now token payload newId).resHeaders = [("Cache-Control", cacheControlValue)])
  ∧ (∀ t, (runToggle st now token todoId).outcome = .ok t →
       (runToggle st now token todoId).resHeaders = [("Cache-Control", cacheControlValue)])
  ∧ (∀ t, (runUpdate st now token data).outcome = .ok t →
       (runUpdate st now token data).resHeaders = [("Cache-Control", cacheControlValue)])
  ∧ (∀ t, (runDelete st now token tid2).outcome = .ok t →
       (runDelete st now token tid2).resHeaders = [("Cache-Control", cacheControlValue)]) := by
  refine ⟨?_, ?_, ?_, ?_, ?_⟩
  · intro r h
    exact run_ok_header st now token _ r (fun u => rfl) h
  · intro t h
    refine run_ok_header st now token _ t (fun u => ?_) h
    cases parseCreateTodoDto payload <;> rfl
  · intro t h
    exact run_ok_header st now token _ t (fun u => rfl) h
  · intro t h
    refine run_ok_header st now token _ t (fun u => ?_) h
    by_cases hv : data.valid = true <;> simp [hv]
  · intro t h
    exact run_ok_header st now token _ t (fun u => rfl) h

/-- C9 witness: a successful authenticated `list` and a successful
authenticated `toggle` both carry the directive. -/
theorem authenticated_success_cache_header_witness :
    (runList ⟨[⟨"u1", "A", "a@x"⟩], [⟨"s1", "u1", "tok1", 100⟩],
        [⟨"t1", "Buy milk", false, "u1", 3, 3⟩]⟩ 5 (some "tok1")).resHeaders
      = [("Cache-Control", cacheControlValue)]
  ∧ (runToggle ⟨[⟨"u1", "A", "a@x"⟩], [⟨"s1", "u1", "tok1", 100⟩],
        [⟨"t1", "Buy milk", false, "u1", 3, 3⟩]⟩ 5 (some "tok1") "t1").resHeaders
      = [("Cache-Control", cacheControlValue)] := by
  constructor
  · exact (authenticated_success_cache_header
      ⟨[⟨"u1", "A", "a@x"⟩], [⟨"s1", "u1", "tok1", 100⟩],
       [⟨"t1", "Buy milk", false, "u1", 3, 3⟩]⟩ 5 (some "tok1")
      ⟨"x", none⟩ "t9" ⟨"t1", none, none⟩ "t1" "t1").1 _ rfl
  · exact (authenticated_success_cache_header
      ⟨[⟨"u1", "A", "a@x"⟩], [⟨"s1", "u1", "tok1", 100⟩],
       [⟨"t1", "Buy milk", false, "u1", 3, 3⟩]⟩ 5 (some "tok1")
      ⟨"x", none⟩ "t9" ⟨"t1", none, none⟩ "t1" "t1").2.2.1 _ rfl

/-! ### Title-invariant machinery -/

/-- The data-model invariant on stored todos: a title is non-empty and at
most 500 characters. -/
def TitleInv (st : Store) : Prop :=
  ∀ t ∈ st.todos, 1 ≤ t.title.length ∧ t.title.length ≤ 500

lemma parse_some_valid {p : RawCreatePayload} {title : String}
    (h : parseCreateTodoDto p = some title) :
    title = p.title ∧ CreateTodoDto.titleValid p.title = true := by
  unfold parseCreateTodoDto at h
  split at h
  · cases h
    rename_i hc
    exact ⟨rfl, hc⟩
  · cases h

lemma titleValid_bounds {s : String} (h : CreateTodoDto.titleValid s = true) :
    1 ≤ s.length ∧ s.length ≤ 500 := by
  unfold CreateTodoDto.titleValid at h
  simp only [Bool.and_eq_true, decide_eq_true_eq] at h
  exact h

lemma create_store_titles {st : Store} {uid title newId : String} {now : Nat} :
    ∀ t ∈ (TodosService.create st uid title newId now).2.todos,
      t ∈ st.todos ∨ t.title = title := by
  intro t ht
  unfold TodosService.create at ht
  rcases List.mem_append.mp ht with h | h
  · exact Or.inl h
  · rcases List.mem_singleton.mp h with rfl
    exact Or.inr rfl

lemma toggle_store_titles {st : Store} {uid tid : String} {now : Nat} :
    ∀ t ∈ (TodosService.toggle st uid tid now).2.todos,
      ∃ t0 ∈ st.todos, t.title = t0.title := by
  unfold TodosService.toggle
  cases hf : st.todos.find? (TodosService.owned tid uid) with
  | none =>
    intro t ht
    exact ⟨t, ht, rfl⟩
  | some ex =>
    intro t ht
    simp only at ht
    rcases List.mem_map.mp ht with ⟨t0, ht0, rfl⟩
    refine ⟨t0, ht0, ?_⟩
    by_cases h : TodosService.owned tid uid t0 = true <;> simp [h]

lemma update_store_titles {st : Store} {uid tid : String} {tt : Option String}
    {tc : Option Bool} {now : Nat} :
    ∀ t ∈ (TodosService.update st uid tid tt tc now).2.todos,
      (∃ t0 ∈ st.todos, t.title = t0.title) ∨ tt = some t.title := by
  unfold TodosService.update
  cases hf : st.todos.find? (TodosService.owned tid uid) with
  | none =>
    intro t ht
    exact Or.inl ⟨t, ht, rfl⟩
  | some ex =>
    intro t ht
    simp only at ht
    rcases List.mem_map.mp ht with ⟨t0, ht0, rfl⟩
    by_cases h : TodosService.owned tid uid t0 = true
    · cases htt : tt with
      | none => exact Or.inl ⟨t0, ht0, by simp [h, htt]⟩
      | some s => exact Or.inr (by simp [h, htt])
    · exact Or.inl ⟨t0, ht0, by simp [h]⟩

lemma delete_store_sub {st : Store} {uid tid : String} :
    ∀ t ∈ (TodosService.delete st uid tid).2.todos, t ∈ st.todos := by
  unfold TodosService.delete
  cases hf : st.todos.find? (TodosService.owned tid uid) with
  | none =>
    intro t ht
    exact ht
  | some ex =>
    intro t ht
    simp only at ht
    exact (List.mem_filter.mp ht).1

lemma authMiddleware_store {α : Type} (st : Store) (now : Nat)
    (token : Option String) (next : User → CallResult α) :
    (authMiddleware st now token next).store
      = match getSession st now token with
        | none => st
        | some u => (next u).store := by
  unfold authMiddleware
  cases hg : getSession st now token with
  | none => rfl
  | some u =>
    cases ho : (next u).outcome <;> simp only [ho]

lemma find_owned_eq_some {st : Store} {uid tid : String} {T : Todo}
    (hnodup : (st.todos.map Todo.id).Nodup) (hT : T ∈ st.todos)
    (hid : T.id = tid) (hu : T.userId = uid) :
    st.todos.find? (TodosService.owned tid uid) = some T := by
  apply find_eq_some_of_unique hT
  · unfold TodosService.owned
    simp [hid, hu]
  · intro x hx hpx
    unfold TodosService.owned at hpx
    simp only [Bool.and_eq_true, beq_iff_eq] at hpx
    exact List.inj_on_of_nodup_map hnodup hx hT (by rw [hpx.1, hid])

/-- The success case of `TodosService.toggle`: the returned row is the
found row with `completed` negated, and the relation is rewritten by the
dual-predicate update. -/
lemma toggle_owned_eq {st : Store} {uid tid : String} (now : Nat) {T : Todo}
    (hnodup : (st.todos.map Todo.id).Nodup) (hT : T ∈ st.todos)
    (hid : T.id = tid) (hu : T.userId = uid) :
    TodosService.toggle st uid tid now =
      (.ok { T with completed := !T.completed, updatedAt := now },
       { st with todos := st.todos.map (fun t =>
          if TodosService.owned tid uid t then
            { t with completed := !T.completed, updatedAt := now }
          else t) }) := by
  unfold TodosService.toggle
  rw [find_owned_eq_some hnodup hT hid hu]

/-- C10: every endpoint preserves the stored-title invariant (non-empty,
at most 500 characters): `create` and `update` admit only schema-valid
titles, `toggle` and `delete` never touch titles; and `UpdateTodoDto`
indeed rejects a supplied title of length 0 or above 500, so no sequence
of calls can store an invalid title. -/
theorem title_invariant_preserved (st : Store) (now : Nat)
    (token : Option String) (payload : RawCreatePayload) (newId : String)
    (data : UpdateTodoDto) (todoId tid2 : String) (hinv : TitleInv st) :
    TitleInv (runCreate st now token payload newId).store
  ∧ TitleInv (runToggle st now token todoId).store
  ∧ TitleInv (runUpdate st now token data).store
  ∧ TitleInv (runDelete st now token tid2).store
  ∧ TitleInv (runList st now token).store
  ∧ (∀ s, data.title = some s → s.length = 0 ∨ 500 < s.length →
      data.valid = false) := by
  refine ⟨?_, ?_, ?_, ?_, ?_, ?_⟩
  · unfold runCreate
    rw [loggingMiddleware_store, authMiddleware_store]
    cases hg : getSession st now token with
    | none => exact hinv
    | some u =>
      simp only
      cases hp : parseCreateTodoDto payload with
      | none => exact hinv
      | some title =>
        obtain ⟨rfl, hv⟩ := parse_some_valid hp
        intro t ht
        rcases create_store_titles t ht with h | h
        · exact hinv t h
        · rw [h]
          exact titleValid_bounds hv
  · unfold runToggle
    rw [loggingMiddleware_store, authMiddleware_store]
    cases hg : getSession st now token with
    | none => exact hinv
    | some u =>
      intro t ht
      rcases toggle_store_titles t ht with ⟨t0, ht0, hteq⟩
      rw [hteq]
      exact hinv t0 ht0
  · unfold runUpdate
    rw [loggingMiddleware_store, authMiddleware_store]
    cases hg : getSession st now token with
    | none => exact hinv
    | some u =>
      simp only
      by_cases hv : data.valid = true
      · simp only [hv, if_true]
        intro t ht
        rcases update_store_titles t ht with ⟨t0, ht0, hteq⟩ | hsome
        · rw [hteq]
          exact hinv t0 ht0
        · unfold UpdateTodoDto.valid at hv
          rw [hsome] at hv
          simp only [Bool.and_eq_true, decide_eq_true_eq] at hv
          exact hv
      · simp only [Bool.not_eq_true] at hv
        simp only [hv, Bool.false_eq_true, if_false]
        exact hinv
  · unfold runDelete
    rw [loggingMiddleware_store, authMiddleware_store]
    cases hg : getSession st now token with
    | none => exact hinv
    | some u =>
      intro t ht
      exact hinv t (delete_store_sub t ht)
  · unfold runList
    rw [loggingMiddleware_store, authMiddleware_store]
    cases hg : getSession st now token with
    | none => exact hinv
    | some u => exact hinv
  · intro s hs hb
    unfold UpdateTodoDto.valid
    rw [hs]
    rcases hb with h0 | h5
    · simp [h0]
    · have : ¬ s.length ≤ 500 := Nat.not_le.mpr h5
      simp [this]

/-- C10 witness: a store already satisfying the invariant keeps it across
each endpoint, and the update schema rejects the empty title. -/
theorem title_invariant_preserved_witness :
    TitleInv (runCreate ⟨[⟨"u1", "A", "a@x"⟩], [⟨"s1", "u1", "tok1", 100⟩],
        [⟨"t1", "Buy milk", false, "u1", 3, 3⟩]⟩ 5 (some "tok1") ⟨"hello", none⟩ "t9").store
  ∧ UpdateTodoDto.valid ⟨"t1", some "", none⟩ = false := by
  have h := title_invariant_preserved
    ⟨[⟨"u1", "A", "a@x"⟩], [⟨"s1", "u1", "tok1", 100⟩],
     [⟨"t1", "Buy milk", false, "u1", 3, 3⟩]⟩ 5 (some "tok1")
    ⟨"hello", none⟩ "t9" ⟨"t1", some "", none⟩ "t1" "t1"
    (by intro t ht; simp at ht; subst ht; exact ⟨by decide, by decide⟩)
  exact ⟨h.1, h.2.2.2.2.2 "" rfl (Or.inl rfl)⟩

/-- C6: for a todo `T` owned by the caller (ids unique in the store), one
toggle returns `T` with `completed` negated; running toggle again on the
resulting store, with no interleaving call, returns — and stores — `T`
with its original `completed` value, all other fields except `updatedAt`
untouched (involution modulo timestamps). -/
theorem toggle_involution (st : Store) (now now2 : Nat) (token : Option String)
    (caller : User) (T : Todo)
    (hnodup : (st.todos.map Todo.id).Nodup)
    (hT : T ∈ st.todos) (hown : T.userId = caller.id)
    (hsess : getSession st now token = some caller)
    (hsess2 : getSession st now2 token = some caller) :
    (runToggle st now token T.id).outcome =
      .ok { T with completed := !T.completed, updatedAt := now }
  ∧ (runToggle (runToggle st now token T.id).store now2 token T.id).outcome =
      .ok { T with updatedAt := now2 }
  ∧ ∀ t ∈ (runToggle (runToggle st now token T.id).store now2 token T.id).store.todos,
      t.id = T.id → t = { T with updatedAt := now2 } := by
  have howned : ∀ x : Todo, x.id = T.id → x.userId = caller.id →
      TodosService.owned T.id caller.id x = true := by
    intro x h1 h2
    unfold TodosService.owned
    simp [h1, h2]
  have h1 := toggle_owned_eq now hnodup hT rfl hown
  have hrun1 : runToggle st now token T.id =
      ⟨.ok { T with completed := !T.completed, updatedAt := now },
       { st with todos := st.todos.map (fun t =>
          if TodosService.owned T.id caller.id t then
            { t with completed := !T.completed, updatedAt := now }
          else t) },
       [("Cache-Control", cacheControlValue)]⟩ := by
    unfold runToggle
    rw [authMiddleware_some_ok _ hsess (by simp only [h1]; rfl)]
    simp only [h1]
    rfl
  have hstore1 : (runToggle st now token T.id).store =
      { st with todos := st.todos.map (fun t =>
          if TodosService.owned T.id caller.id t then
            { t with completed := !T.completed, updatedAt := now }
          else t) } := by
    rw [hrun1]
  have hid1 : ∀ x : Todo,
      (if TodosService.owned T.id caller.id x then
        { x with completed := !T.completed, updatedAt := now } else x).id = x.id := by
    intro x
    by_cases h : TodosService.owned T.id caller.id x = true <;> simp [h]
  have huid1 : ∀ x : Todo,
      (if TodosService.owned T.id caller.id x then
        { x with completed := !T.completed, updatedAt := now } else x).userId = x.userId := by
    intro x
    by_cases h : TodosService.owned T.id caller.id x = true <;> simp [h]
  have hnodup1 : (({ st with todos := st.todos.map (fun t =>
      if TodosService.owned T.id caller.id t then
        { t with completed := !T.completed, updatedAt := now }
      else t) } : Store).todos.map Todo.id).Nodup := by
    have heq : (st.todos.map (fun t =>
        if TodosService.owned T.id caller.id t then
          { t with completed := !T.completed, updatedAt := now }
        else t)).map Todo.id = st.todos.map Todo.id := by
      rw [List.map_map]
      apply List.map_congr_left
      intro t _
      exact hid1 t
    show (st.todos.map _ |>.map Todo.id).Nodup
    rw [heq]
    exact hnodup
  have hT1 : ({ T with completed := !T.completed, updatedAt := now } : Todo)
      ∈ ({ st with todos := st.todos.map (fun t =>
          if TodosService.owned T.id caller.id t then
            { t with completed := !T.completed, updatedAt := now }
          else t) } : Store).todos := by
    show _ ∈ st.todos.map _
    refine List.mem_map.mpr ⟨T, hT, ?_⟩
    rw [if_pos (howned T rfl hown)]
  have hsess2a : getSession ({ st with todos := st.todos.map (fun t =>
      if TodosService.owned T.id caller.id t then
        { t with completed := !T.completed, updatedAt := now }
      else t) } : Store) now2 token = some caller := hsess2
  have h2 := toggle_owned_eq now2 hnodup1 hT1 rfl hown
  have hrun2 : runToggle ({ st with todos := st.todos.map (fun t =>
        if TodosService.owned T.id caller.id t then
          { t with completed := !T.completed, updatedAt := now }
        else t) } : Store) now2 token T.id =
      ⟨.ok { T with completed := !(!T.completed), updatedAt := now2 },
       { st with todos := (st.todos.map (fun t =>
          if TodosService.owned T.id caller.id t then
            { t with completed := !T.completed, updatedAt := now }
          else t)).map (fun t =>
          if TodosService.owned T.id caller.id t then
            { t with completed := !(!T.completed), updatedAt := now2 }
          else t) },
       [("Cache-Control", cacheControlValue)]⟩ := by
    unfold runToggle
    rw [authMiddleware_some_ok _ hsess2a (by simp only [h2]; rfl)]
    simp only [h2]
    rfl
  refine ⟨by rw [hrun1], ?_, ?_⟩
  · rw [hstore1, hrun2]
    simp only [Bool.not_not]
  · rw [hstore1, hrun2]
    intro t ht htid
    simp only at ht
    rcases List.mem_map.mp ht with ⟨s, hs, rfl⟩
    rcases List.mem_map.mp hs with ⟨s0, hs0, rfl⟩
    have hid2 : ∀ x : Todo,
        (if TodosService.owned T.id caller.id x then
          { x with completed := !(!T.completed), updatedAt := now2 } else x).id = x.id := by
      intro x
      by_cases h : TodosService.owned T.id caller.id x = true <;> simp [h]
    have hsid : s0.id = T.id := by
      rw [← htid, hid2 _, hid1 _]
    have hs0T : s0 = T := List.inj_on_of_nodup_map hnodup hs0 hT hsid
    subst hs0T
    have hin := howned s0 rfl hown
    have hout := howned { s0 with completed := !s0.completed, updatedAt := now } rfl hown
    simp only [hin, hout, if_true, Bool.not_not]

/-- C6 witness: toggling `t1` twice at instants 5 then 7 returns it to
`completed = false`, both in the returned values and in the store. -/
theorem toggle_involution_witness :
    (runToggle ⟨[⟨"u1", "A", "a@x"⟩], [⟨"s1", "u1", "tok1", 100⟩],
        [⟨"t1", "Buy milk", false, "u1", 3, 3⟩]⟩ 5 (some "tok1") "t1").outcome
      = .ok ⟨"t1", "Buy milk", true, "u1", 3, 5⟩
  ∧ (runToggle (runToggle ⟨[⟨"u1", "A", "a@x"⟩], [⟨"s1", "u1", "tok1", 100⟩],
        [⟨"t1", "Buy milk", false, "u1", 3, 3⟩]⟩ 5 (some "tok1") "t1").store
        7 (some "tok1") "t1").outcome
      = .ok ⟨"t1", "Buy milk", false, "u1", 3, 7⟩ := by
  have h := toggle_involution ⟨[⟨"u1", "A", "a@x"⟩], [⟨"s1", "u1", "tok1", 100⟩],
    [⟨"t1", "Buy milk", false, "u1", 3, 3⟩]⟩ 5 7 (some "tok1") ⟨"u1", "A", "a@x"⟩
    ⟨"t1", "Buy milk", false, "u1", 3, 3⟩
    (by decide) (by decide) rfl rfl rfl
  exact ⟨h.1, h.2.1⟩
